import Mathlib

/-!
# Verification of the `wgpu-surfaces` examples

A shallow embedding, in Lean 4, of the CPU-side logic of the
`wgpu-surfaces` repository (chapters ch02 and ch03): the vertex-list
construction `create_vertices`, the per-example `State` records with their
`input`, `resize`, `update` and `render` logic, the window-event error
handling of the common application handler, and the command-line parsing
of the simple-surface example's `main`.

Machine floats (`f32`) are modelled as rationals (`ℚ`).  The transcendental
functions (`sin`, `cos`, `tan`) and cgmath's `Matrix4::invert().unwrap()`,
whose numeric values no statement in this development depends on, are
supplied as an explicit oracle record `RealOps`; every definition stays
executable once a concrete oracle is given.  GPU-side effects
(`queue.write_buffer`, buffer creation/destruction, surface configuration,
draw calls) are recorded as explicit effect lists.  Fallible Rust code
(panicking `Vec` indexing, `unwrap` on `parse`) is modelled with `Option`,
`none` standing for a panic.
-/

/-- A 3-component `f32` vector `[f32; 3]`, with `f32` modelled as `ℚ`. -/
abbrev Vec3 : Type := ℚ × ℚ × ℚ

/-- `Vertex` from `ch03/common/vertex.rs`: position, normal and color. -/
structure Vertex where
  position : Vec3
  normal : Vec3
  color : Vec3
deriving DecidableEq, Repr

instance : Inhabited Vertex := ⟨⟨(0, 0, 0), (0, 0, 0), (0, 0, 0)⟩⟩

/-- The output record of the external `surface_data` module
(`sd::ISurfaceOutput`): positions, normals, two per-vertex color lists and
two index buffers (`Vec<u16>` indices modelled as `ℕ`). -/
structure ISurfaceOutput where
  positions : List Vec3
  normals : List Vec3
  colors : List Vec3
  colors2 : List Vec3
  indices : List ℕ
  indices2 : List ℕ
deriving DecidableEq, Repr

/-- The loop body of `create_vertices` run for loop indices `0, …, i-1`:
at step `i` the Rust code indexes `positions[i]`, `normals[i]`, `colors[i]`
and `colors2[i]` (each a panicking `Vec` index, modelled by `List.getElem?`
with `none` standing for the panic) and pushes one vertex onto `data` and
one onto `data2`. -/
def vertsUpTo (ss : ISurfaceOutput) : ℕ → Option (List Vertex × List Vertex)
  | 0 => some ([], [])
  | i + 1 =>
    match vertsUpTo ss i, ss.positions[i]?, ss.normals[i]?,
        ss.colors[i]?, ss.colors2[i]? with
    | some (d, d2), some p, some nm, some c, some c2 =>
      some (d ++ [⟨p, nm, c⟩], d2 ++ [⟨p, nm, c2⟩])
    | _, _, _, _, _ => none

/-- `create_vertices` from `ch03/common/vertex.rs`: loops `i` over
`0..positions.len()`, building `data` (colored by `colors`) and `data2`
(colored by `colors2`), and returns them with the two index lists passed
through unchanged.  `none` models an out-of-bounds panic inside the loop. -/
def create_vertices (ss : ISurfaceOutput) :
    Option (List Vertex × List Vertex × List ℕ × List ℕ) :=
  (vertsUpTo ss ss.positions.length).map fun (d, d2) =>
    (d, d2, ss.indices, ss.indices2)

/-- The vertex that iteration `i` of the loop pushes onto `data`. -/
def vertexAt (ss : ISurfaceOutput) (i : ℕ) : Vertex :=
  ⟨ss.positions.getD i (0, 0, 0), ss.normals.getD i (0, 0, 0),
    ss.colors.getD i (0, 0, 0)⟩

/-- The vertex that iteration `i` of the loop pushes onto `data2`. -/
def vertexAt2 (ss : ISurfaceOutput) (i : ℕ) : Vertex :=
  ⟨ss.positions.getD i (0, 0, 0), ss.normals.getD i (0, 0, 0),
    ss.colors2.getD i (0, 0, 0)⟩

/-- A concrete ill-formed surface output: one position but no normals,
colors or colors2.  `create_vertices` panics on it (out-of-bounds index). -/
def badSurfaceOutput : ISurfaceOutput :=
  ⟨[(1, 2, 3)], [], [], [], [0, 1, 2], [3, 4]⟩

/-- Witness for the universally quantified half of `create_vertices_bounds`,
at a concrete well-formed input with one vertex. -/
def goodSurfaceOutput : ISurfaceOutput :=
  ⟨[(1, 2, 3)], [(0, 1, 0)], [(1, 0, 0)], [(0, 0, 1)], [0], [0]⟩

/-! ## Matrices and transformation helpers (`src/wgpu_simplified.rs`) -/

/-- `cgmath::Matrix4<f32>`, with `f32` entries modelled as `ℚ`. -/
abbrev Mat4 : Type := Matrix (Fin 4) (Fin 4) ℚ

instance : DecidableEq Mat4 := inferInstanceAs (DecidableEq (Fin 4 → Fin 4 → ℚ))

/-- Oracle record for the `f32` transcendental functions and for cgmath's
`Matrix4::invert().unwrap()`.  No claim in this development depends on
their numeric values; supplying them as explicit (executable) parameters
keeps every definition computable. -/
structure RealOps where
  sin : ℚ → ℚ
  cos : ℚ → ℚ
  tan : ℚ → ℚ
  matInv : Mat4 → Mat4

/-- A trivial oracle used by concrete witnesses. -/
def trivialOps : RealOps := ⟨fun _ => 0, fun _ => 1, fun _ => 1, fun m => m⟩

/-- The `f32` value of `std::f32::consts::PI` (the nearest `f32` to π). -/
def PI32 : ℚ := 13176795 / 4194304

/-- `OPENGL_TO_WGPU_MATRIX` from `wgpu_simplified.rs` (cgmath's
`Matrix4::new` takes the 16 entries in column-major order). -/
def OPENGL_TO_WGPU_MATRIX : Mat4 :=
  !![1, 0, 0, 0; 0, 1, 0, 0; 0, 0, 1/2, 1/2; 0, 0, 0, 1]

/-- cgmath `perspective(Rad(fovy), aspect, near, far)`; `cot (fovy/2)` is
written via the tangent oracle. -/
def perspectiveMat (ops : RealOps) (fovy aspect near far : ℚ) : Mat4 :=
  let f : ℚ := 1 / ops.tan (fovy / 2)
  !![f / aspect, 0, 0, 0;
     0, f, 0, 0;
     0, 0, (far + near) / (near - far), 2 * far * near / (near - far);
     0, 0, -1, 0]

/-- cgmath `ortho(l, r, b, t, n, f)`. -/
def orthoMat (l r b t n f : ℚ) : Mat4 :=
  !![2 / (r - l), 0, 0, -(r + l) / (r - l);
     0, 2 / (t - b), 0, -(t + b) / (t - b);
     0, 0, -2 / (f - n), -(f + n) / (f - n);
     0, 0, 0, 1]

/-- `ws::create_projection_mat(aspect, is_perspective)`. -/
def create_projection_mat (ops : RealOps) (aspect : ℚ) (is_perspective : Bool) : Mat4 :=
  if is_perspective then
    OPENGL_TO_WGPU_MATRIX * perspectiveMat ops (2 * PI32 / 5) aspect (1/10) 1000
  else
    OPENGL_TO_WGPU_MATRIX * orthoMat (-4) 4 (-3) 3 (-1) 6

/-- cgmath `Matrix4::from_translation`. -/
def translationMat (t : Vec3) : Mat4 :=
  !![1, 0, 0, t.1; 0, 1, 0, t.2.1; 0, 0, 1, t.2.2; 0, 0, 0, 1]

/-- cgmath `Matrix4::from_angle_x(Rad a)`. -/
def rotXMat (ops : RealOps) (a : ℚ) : Mat4 :=
  !![1, 0, 0, 0;
     0, ops.cos a, -(ops.sin a), 0;
     0, ops.sin a, ops.cos a, 0;
     0, 0, 0, 1]

/-- cgmath `Matrix4::from_angle_y(Rad a)`. -/
def rotYMat (ops : RealOps) (a : ℚ) : Mat4 :=
  !![ops.cos a, 0, ops.sin a, 0;
     0, 1, 0, 0;
     -(ops.sin a), 0, ops.cos a, 0;
     0, 0, 0, 1]

/-- cgmath `Matrix4::from_angle_z(Rad a)`. -/
def rotZMat (ops : RealOps) (a : ℚ) : Mat4 :=
  !![ops.cos a, -(ops.sin a), 0, 0;
     ops.sin a, ops.cos a, 0, 0;
     0, 0, 1, 0;
     0, 0, 0, 1]

/-- cgmath `Matrix4::from_nonuniform_scale`. -/
def scaleMat (s : Vec3) : Mat4 :=
  !![s.1, 0, 0, 0; 0, s.2.1, 0, 0; 0, 0, s.2.2, 0; 0, 0, 0, 1]

/-- `ws::create_model_mat(translation, rotation, scaling)`:
`trans * rot_z * rot_y * rot_x * scale`. -/
def create_model_mat (ops : RealOps) (translation rotation scaling : Vec3) : Mat4 :=
  translationMat translation * rotZMat ops rotation.2.2 * rotYMat ops rotation.2.1 *
    rotXMat ops rotation.1 * scaleMat scaling

/-! ## GPU effects, window events and texture views -/

/-- Identifies one of a state's GPU buffers (`uniform_buffers[i]`,
`vertex_buffers[i]`, `index_buffers[i]`). -/
inductive BufId where
  | uniform (i : ℕ)
  | vertex (i : ℕ)
  | index (i : ℕ)
deriving DecidableEq, Repr

/-- The payload of a buffer write or creation. -/
inductive BufData where
  | mat4 (m : Mat4)
  | mat4List (ms : List Mat4)
  | vertexList (vs : List Vertex)
  | indexList (ix : List ℕ)
deriving DecidableEq

/-- A GPU-side effect issued by `resize` or `update`. -/
inductive Effect where
  | writeBuffer (buf : BufId) (offset : ℕ) (data : BufData)
  | destroyBuffer (buf : BufId)
  | createBuffer (buf : BufId) (data : BufData)
  | configureSurface (width height : ℕ)
deriving DecidableEq

/-- A texture view, identified by the descriptor fields the code derives it
from (`create_depth_view` / `create_msaa_texture_view` in
`wgpu_simplified.rs` read `config.width`, `config.height`, `sample_count`
and pick the depth format or the surface format). -/
structure TexView where
  width : ℕ
  height : ℕ
  sample_count : ℕ
  is_depth : Bool
deriving DecidableEq, Repr

/-- The named keys the examples' `input` functions match on
(`winit::keyboard::NamedKey`, restricted to the variants used). -/
inductive KeyName where
  | space
  | control
  | shift
  | alt
  | escape
  | otherNamed
deriving DecidableEq, Repr

/-- `winit::keyboard::Key`: a named key or a character key. -/
inductive KeyInput where
  | named (k : KeyName)
  | char (c : String)
deriving DecidableEq, Repr

/-- The window events the examples inspect (`winit::event::WindowEvent`,
restricted to the arms used; a keyboard event carries its element state). -/
inductive WinEvent where
  | keyPressed (k : KeyInput)
  | keyReleased (k : KeyInput)
  | closeRequested
  | resized (width height : ℕ)
  | redrawRequested
  | otherEvent
deriving DecidableEq, Repr

/-! ## The parametric-surface example (`ch03/01_parametric_surface/state.rs`) -/

/-- The fields of the external `sd::IParametricSurface` record that the
state code reads or writes (the remaining fields, including
`surface_type_map`, live in the external `surface_data` module).  The
resolutions are modelled as integers; every claim about them concerns the
region at or above the lower clamp 8. -/
structure ParamSurface where
  scale : ℚ
  surface_type : ℕ
  colormap_name : String
  wireframe_color : String
  colormap_direction : ℕ
  u_resolution : ℤ
  v_resolution : ℤ
deriving DecidableEq, Repr

/-- The `State` record of the parametric-surface example, restricted to the
CPU-side fields (GPU handles such as buffers, pipelines and bind groups are
addressed through `BufId` in the effect lists; `init.size`, `init.config`
and `init.sample_count` appear as `init_size`, `config_width`,
`config_height`, `sample_count`; `t0 : Instant` is a time stamp in
seconds). -/
structure PState where
  init_size : ℕ × ℕ
  config_width : ℕ
  config_height : ℕ
  sample_count : ℕ
  view_mat : Mat4
  project_mat : Mat4
  msaa_texture_view : TexView
  depth_texture_view : TexView
  indices_lens : List ℕ
  plot_type : ℕ
  update_buffers : Bool
  recreate_buffers : Bool
  rotation_speed : ℚ
  t0 : ℚ
  random_shape_change : ℕ
  parametric_surface : ParamSurface

/-- The struct literal at the end of `State::new` (lines 241–272): the
concrete initial values of the scalar fields, with the GPU/window-derived
fields taken as parameters. -/
def PState.initial (sz : ℕ × ℕ) (cw ch sc : ℕ) (view project : Mat4)
    (msaa depth : TexView) (ilens : List ℕ) (now : ℚ) (ps : ParamSurface) : PState :=
  { init_size := sz
    config_width := cw
    config_height := ch
    sample_count := sc
    view_mat := view
    project_mat := project
    msaa_texture_view := msaa
    depth_texture_view := depth
    indices_lens := ilens
    plot_type := 1
    update_buffers := false
    recreate_buffers := false
    rotation_speed := 1
    t0 := now
    random_shape_change := 1
    parametric_surface := ps }

/-- `State::input` of the parametric-surface example: reacts to pressed
keys only, returning the mutated state together with the `bool` the Rust
function returns. -/
def PState.input (s : PState) (e : WinEvent) : PState × Bool :=
  match e with
  | .keyPressed (.named .space) =>
    ({ s with plot_type := (s.plot_type + 1) % 3 }, true)
  | .keyPressed (.named .control) =>
    ({ s with
        parametric_surface :=
          { s.parametric_surface with
              surface_type := (s.parametric_surface.surface_type + 1) % 23 }
        update_buffers := true }, true)
  | .keyPressed (.named .shift) =>
    ({ s with
        parametric_surface :=
          { s.parametric_surface with
              colormap_direction := (s.parametric_surface.colormap_direction + 1) % 3 }
        update_buffers := true }, true)
  | .keyPressed (.named .alt) =>
    ({ s with random_shape_change := (s.random_shape_change + 1) % 2 }, true)
  | .keyPressed (.char c) =>
    if c = "q" then
      ({ s with
          parametric_surface :=
            { s.parametric_surface with
                u_resolution := s.parametric_surface.u_resolution + 1 }
          recreate_buffers := true }, true)
    else if c = "a" then
      let r := s.parametric_surface.u_resolution - 1
      ({ s with
          parametric_surface :=
            { s.parametric_surface with u_resolution := if r < 8 then 8 else r }
          recreate_buffers := true }, true)
    else if c = "w" then
      ({ s with
          parametric_surface :=
            { s.parametric_surface with
                v_resolution := s.parametric_surface.v_resolution + 1 }
          recreate_buffers := true }, true)
    else if c = "s" then
      let r := s.parametric_surface.v_resolution - 1
      ({ s with
          parametric_surface :=
            { s.parametric_surface with v_resolution := if r < 8 then 8 else r }
          recreate_buffers := true }, true)
    else if c = "e" then
      ({ s with rotation_speed := s.rotation_speed + 1/10 }, true)
    else if c = "d" then
      let r := s.rotation_speed - 1/10
      ({ s with rotation_speed := if r < 0 then 0 else r }, true)
    else (s, false)
  | _ => (s, false)

/-- The depth texture view `ws::create_depth_view(&self.init)` would build
from the state's current surface configuration. -/
def PState.depthView (s : PState) : TexView :=
  ⟨s.config_width, s.config_height, s.sample_count, true⟩

/-- The MSAA texture view `ws::create_msaa_texture_view(&self.init)` would
build from the state's current surface configuration. -/
def PState.msaaView (s : PState) : TexView :=
  ⟨s.config_width, s.config_height, s.sample_count, false⟩

/-- `State::resize` of the parametric-surface example: when both dimensions
are positive it stores the new size, reconfigures the surface, rebuilds the
projection matrix from the new aspect ratio and recreates the depth view
(and the MSAA view when `sample_count > 1`); otherwise it does nothing. -/
def PState.resize (ops : RealOps) (s : PState) (w h : ℕ) : PState × List Effect :=
  if 0 < w ∧ 0 < h then
    ({ s with
        init_size := (w, h)
        config_width := w
        config_height := h
        project_mat := create_projection_mat ops ((w : ℚ) / (h : ℚ)) true
        depth_texture_view := ⟨w, h, s.sample_count, true⟩
        msaa_texture_view :=
          if 1 < s.sample_count then ⟨w, h, s.sample_count, false⟩
          else s.msaa_texture_view },
      [.configureSurface w h])
  else (s, [])

/-- The `if self.recreate_buffers` block of `State::update`: regenerate the
surface data, store the new index counts, and destroy/recreate the two
vertex and two index buffers.  `gen` is the external
`IParametricSurface::new`. -/
def PState.recreateStep (gen : ParamSurface → ISurfaceOutput) (s : PState) :
    Option (PState × List Effect) :=
  if s.recreate_buffers then
    match create_vertices (gen s.parametric_surface) with
    | none => none
    | some (d, d2, ix, ix2) =>
      some ({ s with indices_lens := [ix.length, ix2.length], recreate_buffers := false },
        [.destroyBuffer (.vertex 0), .createBuffer (.vertex 0) (.vertexList d),
         .destroyBuffer (.index 0), .createBuffer (.index 0) (.indexList ix),
         .destroyBuffer (.vertex 1), .createBuffer (.vertex 1) (.vertexList d2),
         .destroyBuffer (.index 1), .createBuffer (.index 1) (.indexList ix2)])
  else some (s, [])

/-- The five-second random-shape block of `State::update`: when at least 5
seconds elapsed since `t0` and `random_shape_change == 1`, pick a random
surface type in `0..=22`, regenerate the data, overwrite the two vertex
buffers and reset `t0`. -/
def PState.randomShapeStep (gen : ParamSurface → ISurfaceOutput) (s : PState)
    (elapsed : ℚ) (rand : Fin 23) (now : ℚ) : Option (PState × List Effect) :=
  if 5 ≤ elapsed ∧ s.random_shape_change = 1 then
    match create_vertices (gen { s.parametric_surface with surface_type := rand.val }) with
    | none => none
    | some data =>
      some ({ s with
          parametric_surface := { s.parametric_surface with surface_type := rand.val }
          t0 := now },
        [.writeBuffer (.vertex 0) 0 (.vertexList data.1),
         .writeBuffer (.vertex 1) 0 (.vertexList data.2.1)])
  else some (s, [])

/-- The `if self.update_buffers` block of `State::update`: regenerate the
surface data and overwrite the two vertex buffers. -/
def PState.updateBufStep (gen : ParamSurface → ISurfaceOutput) (s : PState) :
    Option (PState × List Effect) :=
  if s.update_buffers then
    match create_vertices (gen s.parametric_surface) with
    | none => none
    | some data =>
      some ({ s with update_buffers := false },
        [.writeBuffer (.vertex 0) 0 (.vertexList data.1),
         .writeBuffer (.vertex 1) 0 (.vertexList data.2.1)])
  else some (s, [])

/-- `State::update(dt)` of the parametric-surface example.  `dt` is the
duration argument in seconds, `elapsed` is `self.t0.elapsed()`, `rand` is
the value drawn by `rng.random_range(0..=22)` and `now` is
`Instant::now()` — all of them inputs the Rust code reads from the
environment.  It first writes the view-projection, model and normal
matrices into uniform buffer 0 at offsets 0, 64 and 128, then runs the
three conditional blocks in order. -/
def PState.update (ops : RealOps) (gen : ParamSurface → ISurfaceOutput)
    (s : PState) (dt elapsed : ℚ) (rand : Fin 23) (now : ℚ) :
    Option (PState × List Effect) :=
  match s.recreateStep gen with
  | none => none
  | some (s1, e1) =>
    match s1.randomShapeStep gen elapsed rand now with
    | none => none
    | some (s2, e2) =>
      match s2.updateBufStep gen with
      | none => none
      | some (s3, e3) =>
        some (s3,
          [.writeBuffer (.uniform 0) 0 (.mat4 (s.project_mat * s.view_mat)),
           .writeBuffer (.uniform 0) 64 (.mat4 (create_model_mat ops (0, 0, 0)
             (ops.sin (s.rotation_speed * dt), ops.cos (s.rotation_speed * dt), 0)
             (1, 1, 1))),
           .writeBuffer (.uniform 0) 128 (.mat4 ((ops.matInv (create_model_mat ops
             (0, 0, 0)
             (ops.sin (s.rotation_speed * dt), ops.cos (s.rotation_speed * dt), 0)
             (1, 1, 1))).transpose))] ++ e1 ++ e2 ++ e3)

/-- A draw call recorded by `State::render`: the pipeline index (0 = solid
triangle-list pipeline, 1 = wireframe line-list pipeline bound to the
secondary index buffer), the index count and the instance range length. -/
structure DrawCall where
  pipeline : ℕ
  index_count : ℕ
  instances : ℕ
deriving DecidableEq, Repr

/-- The draw calls `State::render` of the parametric-surface example
records once the surface texture was acquired: the `plot_type` field is
first rendered to the mode string, then the solid pass runs for
`"shape_only"` and `"both"` and the wireframe pass for `"wireframe_only"`
and `"both"`. -/
def PState.renderDraws (s : PState) : List DrawCall :=
  let plot_type : String :=
    if s.plot_type = 1 then "shape_only"
    else if s.plot_type = 2 then "wireframe_only"
    else "both"
  (if plot_type = "shape_only" ∨ plot_type = "both" then
    [⟨0, s.indices_lens.getD 0 0, 1⟩] else []) ++
  (if plot_type = "wireframe_only" ∨ plot_type = "both" then
    [⟨1, s.indices_lens.getD 1 0, 1⟩] else [])

/-- Whether a render pass of the given pipeline index is issued. -/
def pipelineDrawn (draws : List DrawCall) (p : ℕ) : Bool :=
  draws.any fun d => d.pipeline = p

/-! ## The multiple-simple-surfaces example (`ch02/02_multiple_simple_surfaces/state.rs`) -/

/-- The fields of the external `sd::ISimpleSurface` record that the state
code reads or writes (`t` is the animation time the per-frame update
stores). -/
structure SimpleSurface where
  scale : ℚ
  surface_type : ℕ
  colormap_name : String
  wireframe_color : String
  colormap_direction : ℕ
  t : ℚ
deriving DecidableEq, Repr

/-- The `State` record of the multiple-simple-surfaces example, restricted
to the CPU-side fields, like `PState`. -/
structure MState where
  init_size : ℕ × ℕ
  config_width : ℕ
  config_height : ℕ
  sample_count : ℕ
  view_mat : Mat4
  project_mat : Mat4
  msaa_texture_view : TexView
  depth_texture_view : TexView
  indices_lens : List ℕ
  plot_type : ℕ
  recreate_buffers : Bool
  animation_speed : ℚ
  rotation_speed : ℚ
  x_num : ℕ
  z_num : ℕ
  objects_count : ℕ
  simple_surface : SimpleSurface

/-- The struct literal at the end of `State::new` (lines 290–325) of the
multiple-simple-surfaces example (`x_num` and `z_num` are both 100 there,
and `objects_count` their product). -/
def MState.initial (sz : ℕ × ℕ) (cw ch sc : ℕ) (view project : Mat4)
    (msaa depth : TexView) (ilens : List ℕ) (ss : SimpleSurface) : MState :=
  { init_size := sz
    config_width := cw
    config_height := ch
    sample_count := sc
    view_mat := view
    project_mat := project
    msaa_texture_view := msaa
    depth_texture_view := depth
    indices_lens := ilens
    plot_type := 1
    recreate_buffers := false
    animation_speed := 1
    rotation_speed := 1
    x_num := 100
    z_num := 100
    objects_count := 100 * 100
    simple_surface := ss }

/-- `State::input` of the multiple-simple-surfaces example. -/
def MState.input (s : MState) (e : WinEvent) : MState × Bool :=
  match e with
  | .keyPressed (.named .space) =>
    ({ s with plot_type := (s.plot_type + 1) % 3 }, true)
  | .keyPressed (.named .control) =>
    ({ s with
        simple_surface :=
          { s.simple_surface with
              surface_type := (s.simple_surface.surface_type + 1) % 3 } }, true)
  | .keyPressed (.named .alt) =>
    ({ s with
        simple_surface :=
          { s.simple_surface with
              colormap_direction := (s.simple_surface.colormap_direction + 1) % 3 } }, true)
  | .keyPressed (.char c) =>
    if c = "q" then
      ({ s with animation_speed := s.animation_speed + 1/10 }, true)
    else if c = "a" then
      let r := s.animation_speed - 1/10
      ({ s with animation_speed := if r < 0 then 0 else r }, true)
    else if c = "w" then
      ({ s with rotation_speed := s.rotation_speed + 1/10 }, true)
    else if c = "s" then
      let r := s.rotation_speed - 1/10
      ({ s with rotation_speed := if r < 0 then 0 else r }, true)
    else (s, false)
  | _ => (s, false)

/-- The depth texture view derived from the current configuration. -/
def MState.depthView (s : MState) : TexView :=
  ⟨s.config_width, s.config_height, s.sample_count, true⟩

/-- The MSAA texture view derived from the current configuration. -/
def MState.msaaView (s : MState) : TexView :=
  ⟨s.config_width, s.config_height, s.sample_count, false⟩

/-- `State::resize` of the multiple-simple-surfaces example (same logic as
the parametric one). -/
def MState.resize (ops : RealOps) (s : MState) (w h : ℕ) : MState × List Effect :=
  if 0 < w ∧ 0 < h then
    ({ s with
        init_size := (w, h)
        config_width := w
        config_height := h
        project_mat := create_projection_mat ops ((w : ℚ) / (h : ℚ)) true
        depth_texture_view := ⟨w, h, s.sample_count, true⟩
        msaa_texture_view :=
          if 1 < s.sample_count then ⟨w, h, s.sample_count, false⟩
          else s.msaa_texture_view },
      [.configureSurface w h])
  else (s, [])

/-- One (model, normal) matrix pair of the instanced grid in
`State::update`: entry `(i, j)` with `dt1 = rotation_speed * dt`. -/
def instanceMats (ops : RealOps) (s : MState) (dt1 : ℚ) (i j : ℕ) : Mat4 × Mat4 :=
  let translation : Vec3 := (-150 + 2 * (i : ℚ), 2, -180 + 2 * (j : ℚ))
  let rotation : Vec3 :=
    (ops.sin (dt1 * (i : ℚ) / (s.x_num : ℚ)), ops.sin (dt1 * (j : ℚ) / (s.z_num : ℚ)),
      ops.cos (((i * j : ℕ) : ℚ) * dt1 / (s.objects_count : ℚ)))
  let m := create_model_mat ops translation rotation (1, 1, 1)
  (m, (ops.matInv m).transpose)

/-- The `if self.recreate_buffers` block of the ch02 `State::update`. -/
def MState.recreateStep (gen : SimpleSurface → ISurfaceOutput) (s : MState) :
    Option (MState × List Effect) :=
  if s.recreate_buffers then
    match create_vertices (gen s.simple_surface) with
    | none => none
    | some (d, d2, ix, ix2) =>
      some ({ s with indices_lens := [ix.length, ix2.length], recreate_buffers := false },
        [.destroyBuffer (.vertex 0), .createBuffer (.vertex 0) (.vertexList d),
         .destroyBuffer (.index 0), .createBuffer (.index 0) (.indexList ix),
         .destroyBuffer (.vertex 1), .createBuffer (.vertex 1) (.vertexList d2),
         .destroyBuffer (.index 1), .createBuffer (.index 1) (.indexList ix2)])
  else some (s, [])

/-- The per-frame tail of the ch02 `State::update`: store
`t = animation_speed * dt` in the surface record, regenerate the data and
overwrite the two vertex buffers. -/
def MState.animateStep (gen : SimpleSurface → ISurfaceOutput) (s : MState) (dt : ℚ) :
    Option (MState × List Effect) :=
  match create_vertices (gen { s.simple_surface with t := s.animation_speed * dt }) with
  | none => none
  | some data =>
    some ({ s with
        simple_surface := { s.simple_surface with t := s.animation_speed * dt } },
      [.writeBuffer (.vertex 0) 0 (.vertexList data.1),
       .writeBuffer (.vertex 1) 0 (.vertexList data.2.1)])

/-- `State::update(dt)` of the multiple-simple-surfaces example: writes
the instanced model-matrix list into storage buffer 1 and the normal
matrices into storage buffer 2, writes the view-projection matrix
(`project_mat * view_mat`) into uniform buffer 0 at offset 0, then runs
the recreate block and the per-frame animation block. -/
def MState.update (ops : RealOps) (gen : SimpleSurface → ISurfaceOutput)
    (s : MState) (dt : ℚ) : Option (MState × List Effect) :=
  match s.recreateStep gen with
  | none => none
  | some (s1, e1) =>
    match s1.animateStep gen dt with
    | none => none
    | some (s2, e2) =>
      some (s2,
        [.writeBuffer (.uniform 1) 0 (.mat4List
           (((List.range s.x_num).flatMap fun i => (List.range s.z_num).map fun j =>
             instanceMats ops s (s.rotation_speed * dt) i j).map Prod.fst)),
         .writeBuffer (.uniform 2) 0 (.mat4List
           (((List.range s.x_num).flatMap fun i => (List.range s.z_num).map fun j =>
             instanceMats ops s (s.rotation_speed * dt) i j).map Prod.snd)),
         .writeBuffer (.uniform 0) 0 (.mat4 (s.project_mat * s.view_mat))] ++ e1 ++ e2)

/-- The draw calls the ch02 `State::render` records (each pass draws
`0..objects_count` instances). -/
def MState.renderDraws (s : MState) : List DrawCall :=
  let plot_type : String :=
    if s.plot_type = 1 then "shape_only"
    else if s.plot_type = 2 then "wireframe_only"
    else "both"
  (if plot_type = "shape_only" ∨ plot_type = "both" then
    [⟨0, s.indices_lens.getD 0 0, s.objects_count⟩] else []) ++
  (if plot_type = "wireframe_only" ∨ plot_type = "both" then
    [⟨1, s.indices_lens.getD 1 0, s.objects_count⟩] else [])

/-! ## The common application handler (`ch02/common/app.rs`) -/

/-- `wgpu::SurfaceError`. -/
inductive SurfaceError where
  | timeout
  | outdated
  | lost
  | outOfMemory
  | other
deriving DecidableEq, Repr

/-- What the application handler does after `State::render` during a
`RedrawRequested` event: resize the window state with a given size, exit
the event loop, or just carry on to the next frame. -/
inductive HandlerAction where
  | resizeWindow (size : ℕ × ℕ)
  | exitLoop
  | continueLoop
deriving DecidableEq, Repr

/-- The `match window_state.render()` arm of `Application::window_event`
(lines 102–120 of `ch02/common/app.rs`): `size` is
`window_state.size()`, i.e. the state's stored `init.size`; `none` models
`Ok(_)`.  `Lost` and `Outdated` resize with the stored size, `OutOfMemory`
exits the event loop, `Timeout` and `Other` only print and continue. -/
def handleRenderResult (size : ℕ × ℕ) : Option SurfaceError → HandlerAction
  | none => .continueLoop
  | some .lost => .resizeWindow size
  | some .outdated => .resizeWindow size
  | some .outOfMemory => .exitLoop
  | some .timeout => .continueLoop
  | some .other => .continueLoop

/-! ## `main` of the simple-surface example (`ch02/01_simple_surface/main.rs`) -/

/-- The configuration `main` assembles from the command line. -/
structure MainConfig where
  sample_count : ℕ
  colormap_name : String
  wireframe_color : String
deriving DecidableEq, Repr

/-- Accumulate a decimal-digit character list into a number (`none` on the
first non-digit). -/
def parseDigits : List Char → ℕ → Option ℕ
  | [], acc => some acc
  | c :: cs, acc =>
    if 48 ≤ c.toNat ∧ c.toNat ≤ 57 then parseDigits cs (acc * 10 + (c.toNat - 48))
    else none

/-- `str::parse::<u32>()`: a non-empty digit string whose value fits in 32
bits (`none` models `Err`; the Rust parser additionally accepts a leading
`+`, which no claim depends on). -/
def parseU32 (s : String) : Option ℕ :=
  match s.toList with
  | [] => none
  | cs =>
    match parseDigits cs 0 with
    | some n => if n < 2 ^ 32 then some n else none
    | none => none

/-- The argument handling of `main` (lines 11–24): positional arguments
with defaults `1`, `"jet"`, `"white"`; `args` includes the program name at
position 0; `none` models the panic of `unwrap()` when `args[1]` does not
parse as `u32`. -/
def mainConfig (args : List String) : Option MainConfig :=
  match (if args.length > 1 then parseU32 (args.getD 1 "") else some 1) with
  | none => none
  | some sample_count =>
    some ⟨sample_count,
      if args.length > 2 then args.getD 2 "" else "jet",
      if args.length > 3 then args.getD 3 "" else "white"⟩

/-! ## Concrete fixtures used by witness theorems -/

/-- A concrete parametric-surface record. -/
def ps0 : ParamSurface := ⟨9/2, 0, "jet", "white", 0, 32, 24⟩

/-- A concrete parametric-surface example state with every conditional
branch of `update` disabled. -/
def pSt0 : PState :=
  { init_size := (800, 600)
    config_width := 800
    config_height := 600
    sample_count := 1
    view_mat := 1
    project_mat := 1
    msaa_texture_view := ⟨800, 600, 1, false⟩
    depth_texture_view := ⟨800, 600, 1, true⟩
    indices_lens := [6, 8]
    plot_type := 1
    update_buffers := false
    recreate_buffers := false
    rotation_speed := 1
    t0 := 0
    random_shape_change := 0
    parametric_surface := ps0 }

/-- A concrete surface-data generator for witnesses. -/
def pGen0 : ParamSurface → ISurfaceOutput := fun _ => goodSurfaceOutput

/-- A concrete simple-surface record. -/
def ss0 : SimpleSurface := ⟨1/2, 0, "jet", "white", 0, 0⟩

/-- A concrete multiple-simple-surfaces state with an empty instance grid
and the recreate branch disabled. -/
def mSt0 : MState :=
  { init_size := (800, 600)
    config_width := 800
    config_height := 600
    sample_count := 1
    view_mat := 1
    project_mat := 1
    msaa_texture_view := ⟨800, 600, 1, false⟩
    depth_texture_view := ⟨800, 600, 1, true⟩
    indices_lens := [6, 8]
    plot_type := 1
    recreate_buffers := false
    animation_speed := 1
    rotation_speed := 1
    x_num := 0
    z_num := 0
    objects_count := 0
    simple_surface := ss0 }

/-- A concrete surface-data generator for witnesses. -/
def mGen0 : SimpleSurface → ISurfaceOutput := fun _ => goodSurfaceOutput

/-- The result of the parametric `update` at the concrete fixture (all
conditional branches disabled). -/
def pUpd0 : PState × List Effect :=
  (PState.update trivialOps pGen0 pSt0 1 0 0 0).getD (pSt0, [])

/-- The result of the multiple-surfaces `update` at the concrete fixture. -/
def mUpd0 : MState × List Effect :=
  (MState.update trivialOps mGen0 mSt0 0).getD (mSt0, [])

/-! ## Theorems -/

theorem vertsUpTo_eq_some (ss : ISurfaceOutput) (i : ℕ)
    (hp : i ≤ ss.positions.length) (hn : i ≤ ss.normals.length)
    (hc : i ≤ ss.colors.length) (hc2 : i ≤ ss.colors2.length) :
    vertsUpTo ss i =
      some ((List.range i).map (vertexAt ss), (List.range i).map (vertexAt2 ss)) := by
  induction i with
  | zero => simp [vertsUpTo]
  | succ i ih =>
    have hp' : i < ss.positions.length := lt_of_lt_of_le (Nat.lt_succ_self i) hp
    have hn' : i < ss.normals.length := lt_of_lt_of_le (Nat.lt_succ_self i) hn
    have hc' : i < ss.colors.length := lt_of_lt_of_le (Nat.lt_succ_self i) hc
    have hc2' : i < ss.colors2.length := lt_of_lt_of_le (Nat.lt_succ_self i) hc2
    have ihs := ih (le_of_lt hp') (le_of_lt hn') (le_of_lt hc') (le_of_lt hc2')
    rw [vertsUpTo, ihs, List.getElem?_eq_getElem hp', List.getElem?_eq_getElem hn',
      List.getElem?_eq_getElem hc', List.getElem?_eq_getElem hc2']
    simp only [List.range_succ, List.map_append, List.map_cons, List.map_nil,
      Option.some.injEq, Prod.mk.injEq]
    constructor
    · congr 1
      simp [vertexAt, List.getD, List.getElem?_eq_getElem, hp', hn', hc']
    · congr 1
      simp [vertexAt2, List.getD, List.getElem?_eq_getElem, hp', hn', hc2']

/-- **C1.** For every surface output whose `positions`, `normals`, `colors`
and `colors2` all have length `n`, `create_vertices` returns
`some (data, data2, indices, indices2)` where `data` and `data2` both have
length `n`, `data[i]` is the vertex `⟨positions[i], normals[i], colors[i]⟩`,
`data2[i]` is the vertex `⟨positions[i], normals[i], colors2[i]⟩` (so the
two lists agree on position and normal and differ only in color), and the
two index lists are the input's, unchanged. -/
theorem create_vertices_spec (ss : ISurfaceOutput) (n : ℕ)
    (hp : ss.positions.length = n) (hn : ss.normals.length = n)
    (hc : ss.colors.length = n) (hc2 : ss.colors2.length = n) :
    create_vertices ss =
      some ((List.range n).map (vertexAt ss), (List.range n).map (vertexAt2 ss),
        ss.indices, ss.indices2) ∧
    ((List.range n).map (vertexAt ss)).length = n ∧
    ((List.range n).map (vertexAt2 ss)).length = n ∧
    ∀ i, i < n →
      ((List.range n).map (vertexAt ss)).getD i default =
        ⟨ss.positions.getD i (0, 0, 0), ss.normals.getD i (0, 0, 0),
          ss.colors.getD i (0, 0, 0)⟩ ∧
      ((List.range n).map (vertexAt2 ss)).getD i default =
        ⟨ss.positions.getD i (0, 0, 0), ss.normals.getD i (0, 0, 0),
          ss.colors2.getD i (0, 0, 0)⟩ := by
  subst hp
  refine ⟨?_, by simp, by simp, ?_⟩
  · unfold create_vertices
    rw [vertsUpTo_eq_some ss ss.positions.length le_rfl hn.ge hc.ge hc2.ge]
    rfl
  · intro i hi
    constructor
    · rw [List.getD_eq_getElem?_getD, List.getElem?_map]
      simp [List.getElem?_eq_getElem, hi, vertexAt]
    · rw [List.getD_eq_getElem?_getD, List.getElem?_map]
      simp [List.getElem?_eq_getElem, hi, vertexAt2]

/-- **C8.** `create_vertices` indexes `normals[i]`, `colors[i]` and
`colors2[i]` for every `i < positions.length`: on a concrete input whose
`normals`, `colors` and `colors2` are shorter than `positions` it panics
(modelled: returns `none`), while under the precondition that all four
vectors have equal length the out-of-bounds branch is unreachable and the
function is total (returns `some`). -/
theorem create_vertices_bounds :
    create_vertices badSurfaceOutput = none ∧
    ∀ ss : ISurfaceOutput,
      ss.normals.length = ss.positions.length →
      ss.colors.length = ss.positions.length →
      ss.colors2.length = ss.positions.length →
      (create_vertices ss).isSome = true := by
  constructor
  · decide
  · intro ss hn hc hc2
    rw [(create_vertices_spec ss ss.positions.length rfl hn hc hc2).1]
    rfl

theorem create_vertices_bounds_witness :
    create_vertices badSurfaceOutput = none ∧
    (create_vertices goodSurfaceOutput).isSome = true :=
  ⟨create_vertices_bounds.1,
    create_vertices_bounds.2 goodSurfaceOutput (by decide) (by decide) (by decide)⟩

/-- Witness for `create_vertices_spec` at a concrete input of length 1. -/
theorem create_vertices_spec_witness :
    create_vertices goodSurfaceOutput =
      some ((List.range 1).map (vertexAt goodSurfaceOutput),
        (List.range 1).map (vertexAt2 goodSurfaceOutput),
        goodSurfaceOutput.indices, goodSurfaceOutput.indices2) ∧
    ((List.range 1).map (vertexAt goodSurfaceOutput)).getD 0 default =
      ⟨(1, 2, 3), (0, 1, 0), (1, 0, 0)⟩ := by
  have h := create_vertices_spec goodSurfaceOutput 1 rfl rfl rfl rfl
  refine ⟨h.1, ?_⟩
  rw [(h.2.2.2 0 (by decide)).1]
  decide


/-- **C2.** During a `RedrawRequested` event, a render error is handled by
matching exactly the surface-error enum: `Lost` and `Outdated` resize the
window state with the current stored size, `OutOfMemory` exits the event
loop, and `Timeout` and `Other` neither resize nor exit (they only print
and continue to the next frame); no other recovery action exists. -/
theorem handleRenderResult_spec :
    ∀ (size : ℕ × ℕ) (e : SurfaceError),
      (handleRenderResult size (some e) = .resizeWindow size ↔
        e = .lost ∨ e = .outdated) ∧
      (handleRenderResult size (some e) = .exitLoop ↔ e = .outOfMemory) ∧
      (handleRenderResult size (some e) = .continueLoop ↔
        e = .timeout ∨ e = .other) ∧
      (∀ sz, handleRenderResult size (some e) = .resizeWindow sz → sz = size) := by
  intro size e
  cases e <;> simp [handleRenderResult]

/-- **C10.** `main` of the simple-surface example consumes command-line
arguments positionally with defaults: with fewer than 2 arguments
`sample_count` is 1 (and the other defaults apply too), with fewer than 3
`colormap_name` is `"jet"`, with fewer than 4 `wireframe_color` is
`"white"`; when the first argument is present it is parsed as `u32`, a
non-numeric value panicking (`none`) and a numeric one being used. -/
theorem mainConfig_spec :
    (∀ args : List String, args.length < 2 →
      mainConfig args = some ⟨1, "jet", "white"⟩) ∧
    (∀ (args : List String) (c : MainConfig), args.length < 3 →
      mainConfig args = some c → c.colormap_name = "jet") ∧
    (∀ (args : List String) (c : MainConfig), args.length < 4 →
      mainConfig args = some c → c.wireframe_color = "white") ∧
    (∀ args : List String, 1 < args.length →
      parseU32 (args.getD 1 "") = none → mainConfig args = none) ∧
    (∀ (args : List String) (n : ℕ) (c : MainConfig), 1 < args.length →
      parseU32 (args.getD 1 "") = some n →
      mainConfig args = some c → c.sample_count = n) := by
  refine ⟨?_, ?_, ?_, ?_, ?_⟩
  · intro args h
    have h1 : ¬ (args.length > 1) := by omega
    have h2 : ¬ (args.length > 2) := by omega
    have h3 : ¬ (args.length > 3) := by omega
    simp [mainConfig, h1, h2, h3]
  · intro args c h hc
    have h2 : ¬ (args.length > 2) := by omega
    by_cases h1 : args.length > 1 <;>
      simp only [mainConfig, h1, h2, if_true, if_false, ite_true, ite_false] at hc
    · cases hps : parseU32 (args.getD 1 "") <;> rw [hps] at hc <;>
        simp_all
      exact (congrArg MainConfig.colormap_name hc.symm)
    · simp only [Option.some.injEq] at hc
      exact (congrArg MainConfig.colormap_name hc.symm)
  · intro args c h hc
    have h3 : ¬ (args.length > 3) := by omega
    by_cases h1 : args.length > 1 <;>
      simp only [mainConfig, h1, h3, if_true, if_false, ite_true, ite_false] at hc
    · cases hps : parseU32 (args.getD 1 "") <;> rw [hps] at hc <;>
        simp_all
      exact (congrArg MainConfig.wireframe_color hc.symm)
    · simp only [Option.some.injEq] at hc
      exact (congrArg MainConfig.wireframe_color hc.symm)
  · intro args h1 hps
    unfold mainConfig
    rw [if_pos h1, hps]
  · intro args n c h1 hps hc
    simp only [mainConfig, h1, if_true, ite_true, hps, Option.some.injEq] at hc
    exact (congrArg MainConfig.sample_count hc.symm)

/-- Witness for `mainConfig_spec` at concrete argument lists. -/
theorem mainConfig_spec_witness :
    mainConfig ["prog"] = some ⟨1, "jet", "white"⟩ ∧
    mainConfig ["prog", "abc"] = none ∧
    (∀ c : MainConfig, mainConfig ["prog", "4"] = some c → c.sample_count = 4) :=
  ⟨mainConfig_spec.1 ["prog"] (by decide),
    mainConfig_spec.2.2.2.1 ["prog", "abc"] (by decide) (by decide),
    fun c hc => mainConfig_spec.2.2.2.2 ["prog", "4"] 4 c (by decide) (by decide) hc⟩

/-- **C6.** A single key cycles the colormap direction modulo 3: Alt in the
multiple-simple-surfaces example and Shift in the parametric example set
`colormap_direction` to `(colormap_direction + 1) % 3` (the parametric
press also sets `update_buffers`), and both `input` functions keep
`colormap_direction < 3` across every processed event. -/
theorem colormap_direction_cycle :
    (∀ s : MState,
      (MState.input s (.keyPressed (.named .alt))).1.simple_surface.colormap_direction =
        (s.simple_surface.colormap_direction + 1) % 3 ∧
      (MState.input s (.keyPressed (.named .alt))).2 = true) ∧
    (∀ s : PState,
      (PState.input s (.keyPressed (.named .shift))).1.parametric_surface.colormap_direction =
        (s.parametric_surface.colormap_direction + 1) % 3 ∧
      (PState.input s (.keyPressed (.named .shift))).1.update_buffers = true ∧
      (PState.input s (.keyPressed (.named .shift))).2 = true) ∧
    (∀ (s : MState) (e : WinEvent), s.simple_surface.colormap_direction < 3 →
      (MState.input s e).1.simple_surface.colormap_direction < 3) ∧
    (∀ (s : PState) (e : WinEvent), s.parametric_surface.colormap_direction < 3 →
      (PState.input s e).1.parametric_surface.colormap_direction < 3) := by
  refine ⟨fun s => ⟨rfl, rfl⟩, fun s => ⟨rfl, rfl, rfl⟩, ?_, ?_⟩
  · intro s e h
    cases e with
    | keyPressed k =>
      cases k with
      | named n => cases n <;> simp [MState.input] <;> omega
      | char c =>
        simp only [MState.input]
        split_ifs <;> simpa using h
    | keyReleased k => simpa [MState.input] using h
    | closeRequested => simpa [MState.input] using h
    | resized w hh => simpa [MState.input] using h
    | redrawRequested => simpa [MState.input] using h
    | otherEvent => simpa [MState.input] using h
  · intro s e h
    cases e with
    | keyPressed k =>
      cases k with
      | named n => cases n <;> simp [PState.input] <;> omega
      | char c =>
        simp only [PState.input]
        split_ifs <;> simpa using h
    | keyReleased k => simpa [PState.input] using h
    | closeRequested => simpa [PState.input] using h
    | resized w hh => simpa [PState.input] using h
    | redrawRequested => simpa [PState.input] using h
    | otherEvent => simpa [PState.input] using h

/-- Witness for `colormap_direction_cycle` at concrete states. -/
theorem colormap_direction_cycle_witness :
    (MState.input mSt0 (.keyPressed (.named .alt))).1.simple_surface.colormap_direction =
      (mSt0.simple_surface.colormap_direction + 1) % 3 ∧
    (PState.input pSt0 (.keyPressed (.named .shift))).1.update_buffers = true ∧
    (MState.input mSt0 .closeRequested).1.simple_surface.colormap_direction < 3 ∧
    (PState.input pSt0 (.keyPressed (.char "x"))).1.parametric_surface.colormap_direction < 3 :=
  ⟨(colormap_direction_cycle.1 mSt0).1,
    (colormap_direction_cycle.2.1 pSt0).2.1,
    colormap_direction_cycle.2.2.1 mSt0 .closeRequested (by decide),
    colormap_direction_cycle.2.2.2 pSt0 (.keyPressed (.char "x")) (by decide)⟩

theorem mstate_input_rotation_nonneg (s : MState) (e : WinEvent)
    (h : 0 ≤ s.rotation_speed) : 0 ≤ (MState.input s e).1.rotation_speed := by
  cases e with
  | keyPressed k =>
    cases k with
    | named n => cases n <;> simpa [MState.input] using h
    | char c =>
      simp only [MState.input]
      split_ifs <;> simp_all <;> try linarith
  | keyReleased k => simpa [MState.input] using h
  | closeRequested => simpa [MState.input] using h
  | resized w hh => simpa [MState.input] using h
  | redrawRequested => simpa [MState.input] using h
  | otherEvent => simpa [MState.input] using h

theorem pstate_input_rotation_nonneg (s : PState) (e : WinEvent)
    (h : 0 ≤ s.rotation_speed) : 0 ≤ (PState.input s e).1.rotation_speed := by
  cases e with
  | keyPressed k =>
    cases k with
    | named n => cases n <;> simpa [PState.input] using h
    | char c =>
      simp only [PState.input]
      split_ifs <;> simp_all <;> try linarith
  | keyReleased k => simpa [PState.input] using h
  | closeRequested => simpa [PState.input] using h
  | resized w hh => simpa [PState.input] using h
  | redrawRequested => simpa [PState.input] using h
  | otherEvent => simpa [PState.input] using h

/-- **C5.** Rotation speed is tweaked only by the increment/decrement keys
(`"w"`/`"s"` in the multiple-simple-surfaces example, `"e"`/`"d"` in the
parametric one): the increment key adds 0.1, the decrement key subtracts
0.1 and resets to 0 whenever the result is negative, every other event
leaves `rotation_speed` unchanged, and consequently `rotation_speed ≥ 0`
is preserved by any sequence of input events. -/
theorem rotation_speed_spec :
    (∀ s : MState,
      (MState.input s (.keyPressed (.char "w"))).1.rotation_speed =
        s.rotation_speed + 1/10 ∧
      (MState.input s (.keyPressed (.char "s"))).1.rotation_speed =
        (if s.rotation_speed - 1/10 < 0 then 0 else s.rotation_speed - 1/10)) ∧
    (∀ s : PState,
      (PState.input s (.keyPressed (.char "e"))).1.rotation_speed =
        s.rotation_speed + 1/10 ∧
      (PState.input s (.keyPressed (.char "d"))).1.rotation_speed =
        (if s.rotation_speed - 1/10 < 0 then 0 else s.rotation_speed - 1/10)) ∧
    (∀ (s : MState) (e : WinEvent),
      e ≠ .keyPressed (.char "w") → e ≠ .keyPressed (.char "s") →
      (MState.input s e).1.rotation_speed = s.rotation_speed) ∧
    (∀ (s : PState) (e : WinEvent),
      e ≠ .keyPressed (.char "e") → e ≠ .keyPressed (.char "d") →
      (PState.input s e).1.rotation_speed = s.rotation_speed) ∧
    (∀ (s : MState) (events : List WinEvent), 0 ≤ s.rotation_speed →
      0 ≤ (events.foldl (fun t e => (MState.input t e).1) s).rotation_speed) ∧
    (∀ (s : PState) (events : List WinEvent), 0 ≤ s.rotation_speed →
      0 ≤ (events.foldl (fun t e => (PState.input t e).1) s).rotation_speed) := by
  refine ⟨fun s => ⟨by simp [MState.input], by simp [MState.input]⟩,
    fun s => ⟨by simp [PState.input], by simp [PState.input]⟩, ?_, ?_, ?_, ?_⟩
  · intro s e hw hs
    cases e with
    | keyPressed k =>
      cases k with
      | named n => cases n <;> rfl
      | char c =>
        simp only [MState.input]
        split_ifs <;> first
          | rfl
          | (exfalso; simp_all)
    | keyReleased k => rfl
    | closeRequested => rfl
    | resized w hh => rfl
    | redrawRequested => rfl
    | otherEvent => rfl
  · intro s e he hd
    cases e with
    | keyPressed k =>
      cases k with
      | named n => cases n <;> rfl
      | char c =>
        simp only [PState.input]
        split_ifs <;> first
          | rfl
          | (exfalso; simp_all)
    | keyReleased k => rfl
    | closeRequested => rfl
    | resized w hh => rfl
    | redrawRequested => rfl
    | otherEvent => rfl
  · intro s events h
    induction events generalizing s with
    | nil => simpa using h
    | cons e es ih => exact ih _ (mstate_input_rotation_nonneg s e h)
  · intro s events h
    induction events generalizing s with
    | nil => simpa using h
    | cons e es ih => exact ih _ (pstate_input_rotation_nonneg s e h)

/-- Witness for `rotation_speed_spec` at concrete states and event lists. -/
theorem rotation_speed_spec_witness :
    (MState.input mSt0 (.keyPressed (.char "w"))).1.rotation_speed =
      mSt0.rotation_speed + 1/10 ∧
    (PState.input pSt0 .closeRequested).1.rotation_speed = pSt0.rotation_speed ∧
    0 ≤ (([.keyPressed (.char "d"), .keyPressed (.char "d")] :
        List WinEvent).foldl (fun t e => (PState.input t e).1) pSt0).rotation_speed :=
  ⟨(rotation_speed_spec.1 mSt0).1,
    rotation_speed_spec.2.2.2.1 pSt0 .closeRequested (by decide) (by decide),
    rotation_speed_spec.2.2.2.2.2 pSt0
      [.keyPressed (.char "d"), .keyPressed (.char "d")] (by norm_num [pSt0])⟩

/-- **C4.** In the parametric-surface example, `"q"` increments
`u_resolution`, `"a"` decrements it clamping below at 8, `"w"` and `"s"`
do the same for `v_resolution`; each of the four presses sets
`recreate_buffers` and makes `input` return `true`; and both resolutions
stay at or above 8 across every processed input event. -/
theorem resolution_keys_spec :
    (∀ s : PState,
      (PState.input s (.keyPressed (.char "q"))).1.parametric_surface.u_resolution =
        s.parametric_surface.u_resolution + 1 ∧
      (PState.input s (.keyPressed (.char "q"))).1.recreate_buffers = true ∧
      (PState.input s (.keyPressed (.char "q"))).2 = true) ∧
    (∀ s : PState,
      (PState.input s (.keyPressed (.char "a"))).1.parametric_surface.u_resolution =
        (if s.parametric_surface.u_resolution - 1 < 8 then 8
          else s.parametric_surface.u_resolution - 1) ∧
      (PState.input s (.keyPressed (.char "a"))).1.recreate_buffers = true ∧
      (PState.input s (.keyPressed (.char "a"))).2 = true) ∧
    (∀ s : PState,
      (PState.input s (.keyPressed (.char "w"))).1.parametric_surface.v_resolution =
        s.parametric_surface.v_resolution + 1 ∧
      (PState.input s (.keyPressed (.char "w"))).1.recreate_buffers = true ∧
      (PState.input s (.keyPressed (.char "w"))).2 = true) ∧
    (∀ s : PState,
      (PState.input s (.keyPressed (.char "s"))).1.parametric_surface.v_resolution =
        (if s.parametric_surface.v_resolution - 1 < 8 then 8
          else s.parametric_surface.v_resolution - 1) ∧
      (PState.input s (.keyPressed (.char "s"))).1.recreate_buffers = true ∧
      (PState.input s (.keyPressed (.char "s"))).2 = true) ∧
    (∀ (s : PState) (e : WinEvent),
      8 ≤ s.parametric_surface.u_resolution →
      8 ≤ s.parametric_surface.v_resolution →
      8 ≤ (PState.input s e).1.parametric_surface.u_resolution ∧
      8 ≤ (PState.input s e).1.parametric_surface.v_resolution) := by
  refine ⟨fun s => ⟨by simp [PState.input], by simp [PState.input], by simp [PState.input]⟩,
    fun s => ⟨by simp [PState.input], by simp [PState.input], by simp [PState.input]⟩,
    fun s => ⟨by simp [PState.input], by simp [PState.input], by simp [PState.input]⟩,
    fun s => ⟨by simp [PState.input], by simp [PState.input], by simp [PState.input]⟩, ?_⟩
  intro s e hu hv
  cases e with
  | keyPressed k =>
    cases k with
    | named n => cases n <;> exact ⟨hu, hv⟩
    | char c =>
      simp only [PState.input]
      split_ifs <;>
        refine ⟨?_, ?_⟩ <;> simp_all <;> omega
  | keyReleased k => exact ⟨hu, hv⟩
  | closeRequested => exact ⟨hu, hv⟩
  | resized w hh => exact ⟨hu, hv⟩
  | redrawRequested => exact ⟨hu, hv⟩
  | otherEvent => exact ⟨hu, hv⟩

/-- Witness for `resolution_keys_spec` at a concrete state. -/
theorem resolution_keys_spec_witness :
    (PState.input pSt0 (.keyPressed (.char "q"))).1.parametric_surface.u_resolution =
      pSt0.parametric_surface.u_resolution + 1 ∧
    8 ≤ (PState.input pSt0 (.keyPressed (.char "a"))).1.parametric_surface.u_resolution :=
  ⟨(resolution_keys_spec.1 pSt0).1,
    (resolution_keys_spec.2.2.2.2 pSt0 (.keyPressed (.char "a"))
      (by norm_num [pSt0, ps0]) (by norm_num [pSt0, ps0])).1⟩

/-- **C3.** In the parametric-surface example, Space sets `plot_type` to
`(plot_type + 1) % 3` (so, starting from the initial value 1, `plot_type`
stays in `{0, 1, 2}` across any sequence of inputs), and in every render
the solid triangle-list pipeline (index 0) draws exactly when `plot_type`
is 0 or 1 while the wireframe line-list pipeline (index 1, bound to the
secondary index buffer) draws exactly when `plot_type` is 0 or 2. -/
theorem plot_type_spec :
    (∀ s : PState,
      (PState.input s (.keyPressed (.named .space))).1.plot_type =
        (s.plot_type + 1) % 3 ∧
      (PState.input s (.keyPressed (.named .space))).2 = true) ∧
    (∀ (sz : ℕ × ℕ) (cw ch sc : ℕ) (view project : Mat4) (msaa depth : TexView)
        (ilens : List ℕ) (now : ℚ) (ps : ParamSurface),
      (PState.initial sz cw ch sc view project msaa depth ilens now ps).plot_type = 1) ∧
    (∀ (s : PState) (e : WinEvent), s.plot_type < 3 →
      (PState.input s e).1.plot_type < 3) ∧
    (∀ (sz : ℕ × ℕ) (cw ch sc : ℕ) (view project : Mat4) (msaa depth : TexView)
        (ilens : List ℕ) (now : ℚ) (ps : ParamSurface) (events : List WinEvent),
      (events.foldl (fun t e => (PState.input t e).1)
        (PState.initial sz cw ch sc view project msaa depth ilens now ps)).plot_type < 3) ∧
    (∀ s : PState, s.plot_type < 3 →
      (pipelineDrawn s.renderDraws 0 = true ↔ s.plot_type = 0 ∨ s.plot_type = 1) ∧
      (pipelineDrawn s.renderDraws 1 = true ↔ s.plot_type = 0 ∨ s.plot_type = 2)) := by
  have hstep : ∀ (s : PState) (e : WinEvent), s.plot_type < 3 →
      (PState.input s e).1.plot_type < 3 := by
    intro s e h
    cases e with
    | keyPressed k =>
      cases k with
      | named n => cases n <;> simp [PState.input] <;> omega
      | char c =>
        simp only [PState.input]
        split_ifs <;> simpa using h
    | keyReleased k => simpa [PState.input] using h
    | closeRequested => simpa [PState.input] using h
    | resized w hh => simpa [PState.input] using h
    | redrawRequested => simpa [PState.input] using h
    | otherEvent => simpa [PState.input] using h
  refine ⟨fun s => ⟨rfl, rfl⟩, fun _ _ _ _ _ _ _ _ _ _ _ => rfl, hstep, ?_, ?_⟩
  · intro sz cw ch sc view project msaa depth ilens now ps events
    have : ∀ (s : PState), s.plot_type < 3 → ∀ es : List WinEvent,
        (es.foldl (fun t e => (PState.input t e).1) s).plot_type < 3 := by
      intro s hs es
      induction es generalizing s with
      | nil => simpa using hs
      | cons e es ih => exact ih _ (hstep s e hs)
    exact this _ (by simp [PState.initial]) events
  · intro s h
    have h3 : s.plot_type = 0 ∨ s.plot_type = 1 ∨ s.plot_type = 2 := by omega
    rcases h3 with h0 | h0 | h0 <;>
      simp [PState.renderDraws, pipelineDrawn, h0]

/-- Witness for `plot_type_spec` at a concrete state and event list. -/
theorem plot_type_spec_witness :
    (PState.input pSt0 .otherEvent).1.plot_type < 3 ∧
    (pipelineDrawn pSt0.renderDraws 0 = true ↔ pSt0.plot_type = 0 ∨ pSt0.plot_type = 1) :=
  ⟨plot_type_spec.2.2.1 pSt0 .otherEvent (by norm_num [pSt0]),
    (plot_type_spec.2.2.2.2 pSt0 (by norm_num [pSt0])).1⟩

/-- **C9.** `State::resize` in both examples does nothing at all when
either dimension of the new size is zero (state unchanged, no surface
reconfiguration, no texture-view or projection-matrix recreation); when
both are positive it stores the new size in `init.size` and the surface
configuration, reconfigures the surface, rebuilds `project_mat` from the
new aspect ratio, recreates the depth texture view and — exactly when
`sample_count > 1` — the MSAA texture view, leaving every other field
unchanged. -/
theorem resize_spec :
    (∀ (ops : RealOps) (s : PState) (w h : ℕ), w = 0 ∨ h = 0 →
      PState.resize ops s w h = (s, [])) ∧
    (∀ (ops : RealOps) (s : MState) (w h : ℕ), w = 0 ∨ h = 0 →
      MState.resize ops s w h = (s, [])) ∧
    (∀ (ops : RealOps) (s : PState) (w h : ℕ), 0 < w → 0 < h →
      (PState.resize ops s w h).1.init_size = (w, h) ∧
      (PState.resize ops s w h).1.config_width = w ∧
      (PState.resize ops s w h).1.config_height = h ∧
      (PState.resize ops s w h).1.project_mat =
        create_projection_mat ops ((w : ℚ) / (h : ℚ)) true ∧
      (PState.resize ops s w h).1.depth_texture_view = ⟨w, h, s.sample_count, true⟩ ∧
      (1 < s.sample_count →
        (PState.resize ops s w h).1.msaa_texture_view = ⟨w, h, s.sample_count, false⟩) ∧
      (s.sample_count ≤ 1 →
        (PState.resize ops s w h).1.msaa_texture_view = s.msaa_texture_view) ∧
      (PState.resize ops s w h).1.sample_count = s.sample_count ∧
      (PState.resize ops s w h).1.view_mat = s.view_mat ∧
      (PState.resize ops s w h).1.plot_type = s.plot_type ∧
      (PState.resize ops s w h).1.rotation_speed = s.rotation_speed ∧
      (PState.resize ops s w h).1.update_buffers = s.update_buffers ∧
      (PState.resize ops s w h).1.recreate_buffers = s.recreate_buffers ∧
      (PState.resize ops s w h).1.parametric_surface = s.parametric_surface ∧
      (PState.resize ops s w h).2 = [.configureSurface w h]) ∧
    (∀ (ops : RealOps) (s : MState) (w h : ℕ), 0 < w → 0 < h →
      (MState.resize ops s w h).1.init_size = (w, h) ∧
      (MState.resize ops s w h).1.config_width = w ∧
      (MState.resize ops s w h).1.config_height = h ∧
      (MState.resize ops s w h).1.project_mat =
        create_projection_mat ops ((w : ℚ) / (h : ℚ)) true ∧
      (MState.resize ops s w h).1.depth_texture_view = ⟨w, h, s.sample_count, true⟩ ∧
      (1 < s.sample_count →
        (MState.resize ops s w h).1.msaa_texture_view = ⟨w, h, s.sample_count, false⟩) ∧
      (s.sample_count ≤ 1 →
        (MState.resize ops s w h).1.msaa_texture_view = s.msaa_texture_view) ∧
      (MState.resize ops s w h).1.sample_count = s.sample_count ∧
      (MState.resize ops s w h).1.view_mat = s.view_mat ∧
      (MState.resize ops s w h).1.plot_type = s.plot_type ∧
      (MState.resize ops s w h).1.rotation_speed = s.rotation_speed ∧
      (MState.resize ops s w h).1.recreate_buffers = s.recreate_buffers ∧
      (MState.resize ops s w h).1.simple_surface = s.simple_surface ∧
      (MState.resize ops s w h).2 = [.configureSurface w h]) := by
  refine ⟨?_, ?_, ?_, ?_⟩
  · intro ops s w h hz
    unfold PState.resize
    rw [if_neg (by omega)]
  · intro ops s w h hz
    unfold MState.resize
    rw [if_neg (by omega)]
  · intro ops s w h hw hh
    unfold PState.resize
    split_ifs with hcond hs
    · exact ⟨rfl, rfl, rfl, rfl, rfl, fun _ => rfl, fun hle => absurd hs (not_lt.mpr hle),
        rfl, rfl, rfl, rfl, rfl, rfl, rfl, rfl⟩
    · exact ⟨rfl, rfl, rfl, rfl, rfl, fun hgt => absurd hgt hs, fun _ => rfl,
        rfl, rfl, rfl, rfl, rfl, rfl, rfl, rfl⟩
    · exact absurd ⟨hw, hh⟩ hcond
  · intro ops s w h hw hh
    unfold MState.resize
    split_ifs with hcond hs
    · exact ⟨rfl, rfl, rfl, rfl, rfl, fun _ => rfl, fun hle => absurd hs (not_lt.mpr hle),
        rfl, rfl, rfl, rfl, rfl, rfl, rfl⟩
    · exact ⟨rfl, rfl, rfl, rfl, rfl, fun hgt => absurd hgt hs, fun _ => rfl,
        rfl, rfl, rfl, rfl, rfl, rfl, rfl⟩
    · exact absurd ⟨hw, hh⟩ hcond

/-- Witness for `resize_spec` at concrete states and sizes. -/
theorem resize_spec_witness :
    PState.resize trivialOps pSt0 0 480 = (pSt0, []) ∧
    MState.resize trivialOps mSt0 640 0 = (mSt0, []) ∧
    (PState.resize trivialOps pSt0 640 480).1.init_size = (640, 480) ∧
    (MState.resize trivialOps mSt0 640 480).1.depth_texture_view =
      ⟨640, 480, mSt0.sample_count, true⟩ :=
  ⟨resize_spec.1 trivialOps pSt0 0 480 (Or.inl rfl),
    resize_spec.2.1 trivialOps mSt0 640 0 (Or.inr rfl),
    (resize_spec.2.2.1 trivialOps pSt0 640 480 (by norm_num) (by norm_num)).1,
    (resize_spec.2.2.2 trivialOps mSt0 640 480 (by norm_num) (by norm_num)).2.2.2.2.1⟩


theorem pstate_recreateStep_fields (gen : ParamSurface → ISurfaceOutput)
    (s : PState) (p : PState × List Effect)
    (h : PState.recreateStep gen s = some p) :
    p.1.recreate_buffers = false ∧ p.1.update_buffers = s.update_buffers ∧
    p.1.plot_type = s.plot_type ∧ p.1.rotation_speed = s.rotation_speed ∧
    p.1.view_mat = s.view_mat ∧ p.1.project_mat = s.project_mat ∧
    p.1.random_shape_change = s.random_shape_change := by
  unfold PState.recreateStep at h
  split_ifs at h with hr
  · split at h
    · simp at h
    · simp only [Option.some.injEq] at h
      subst h
      exact ⟨rfl, rfl, rfl, rfl, rfl, rfl, rfl⟩
  · simp only [Option.some.injEq] at h
    subst h
    simp only [Bool.not_eq_true] at hr
    exact ⟨hr, rfl, rfl, rfl, rfl, rfl, rfl⟩

theorem pstate_randomShapeStep_fields (gen : ParamSurface → ISurfaceOutput)
    (s : PState) (elapsed : ℚ) (rand : Fin 23) (now : ℚ)
    (p : PState × List Effect)
    (h : PState.randomShapeStep gen s elapsed rand now = some p) :
    p.1.recreate_buffers = s.recreate_buffers ∧ p.1.update_buffers = s.update_buffers ∧
    p.1.plot_type = s.plot_type ∧ p.1.rotation_speed = s.rotation_speed ∧
    p.1.view_mat = s.view_mat ∧ p.1.project_mat = s.project_mat := by
  unfold PState.randomShapeStep at h
  split_ifs at h with hc
  · split at h
    · simp at h
    · simp only [Option.some.injEq] at h
      subst h
      exact ⟨rfl, rfl, rfl, rfl, rfl, rfl⟩
  · simp only [Option.some.injEq] at h
    subst h
    exact ⟨rfl, rfl, rfl, rfl, rfl, rfl⟩

theorem pstate_updateBufStep_fields (gen : ParamSurface → ISurfaceOutput)
    (s : PState) (p : PState × List Effect)
    (h : PState.updateBufStep gen s = some p) :
    p.1.update_buffers = false ∧ p.1.recreate_buffers = s.recreate_buffers ∧
    p.1.plot_type = s.plot_type ∧ p.1.rotation_speed = s.rotation_speed ∧
    p.1.view_mat = s.view_mat ∧ p.1.project_mat = s.project_mat := by
  unfold PState.updateBufStep at h
  split_ifs at h with hu
  · split at h
    · simp at h
    · simp only [Option.some.injEq] at h
      subst h
      exact ⟨rfl, rfl, rfl, rfl, rfl, rfl⟩
  · simp only [Option.some.injEq] at h
    subst h
    simp only [Bool.not_eq_true] at hu
    exact ⟨hu, rfl, rfl, rfl, rfl, rfl⟩

theorem mstate_recreateStep_fields (gen : SimpleSurface → ISurfaceOutput)
    (s : MState) (p : MState × List Effect)
    (h : MState.recreateStep gen s = some p) :
    p.1.recreate_buffers = false ∧ p.1.plot_type = s.plot_type ∧
    p.1.rotation_speed = s.rotation_speed ∧ p.1.view_mat = s.view_mat ∧
    p.1.project_mat = s.project_mat ∧ p.1.animation_speed = s.animation_speed ∧
    p.1.simple_surface = s.simple_surface := by
  unfold MState.recreateStep at h
  split_ifs at h with hr
  · split at h
    · simp at h
    · simp only [Option.some.injEq] at h
      subst h
      exact ⟨rfl, rfl, rfl, rfl, rfl, rfl, rfl⟩
  · simp only [Option.some.injEq] at h
    subst h
    simp only [Bool.not_eq_true] at hr
    exact ⟨hr, rfl, rfl, rfl, rfl, rfl, rfl⟩

theorem mstate_animateStep_fields (gen : SimpleSurface → ISurfaceOutput)
    (s : MState) (dt : ℚ) (p : MState × List Effect)
    (h : MState.animateStep gen s dt = some p) :
    p.1.recreate_buffers = s.recreate_buffers ∧ p.1.plot_type = s.plot_type ∧
    p.1.rotation_speed = s.rotation_speed ∧ p.1.view_mat = s.view_mat ∧
    p.1.project_mat = s.project_mat := by
  unfold MState.animateStep at h
  split at h
  · simp at h
  · simp only [Option.some.injEq] at h
    subst h
    exact ⟨rfl, rfl, rfl, rfl, rfl⟩

/-- **C7.** Every call to `State::update(dt)` unconditionally writes the
view-projection matrix `project_mat * view_mat` to uniform buffer 0 at
offset 0 (in the parametric example also the model matrix at offset 64 and
the normal matrix at offset 128), regardless of the
`recreate_buffers`/`update_buffers` flags; after `update` returns,
`recreate_buffers` (and, where present, `update_buffers`) is false, while
`plot_type`, `rotation_speed`, `view_mat` and `project_mat` are
unchanged. -/
theorem update_uploads :
    (∀ (ops : RealOps) (gen : ParamSurface → ISurfaceOutput) (s : PState)
        (dt elapsed : ℚ) (rand : Fin 23) (now : ℚ) (p : PState × List Effect),
      PState.update ops gen s dt elapsed rand now = some p →
      Effect.writeBuffer (.uniform 0) 0 (.mat4 (s.project_mat * s.view_mat)) ∈ p.2 ∧
      Effect.writeBuffer (.uniform 0) 64 (.mat4 (create_model_mat ops (0, 0, 0)
        (ops.sin (s.rotation_speed * dt), ops.cos (s.rotation_speed * dt), 0)
        (1, 1, 1))) ∈ p.2 ∧
      Effect.writeBuffer (.uniform 0) 128 (.mat4 ((ops.matInv (create_model_mat ops
        (0, 0, 0)
        (ops.sin (s.rotation_speed * dt), ops.cos (s.rotation_speed * dt), 0)
        (1, 1, 1))).transpose)) ∈ p.2 ∧
      p.1.recreate_buffers = false ∧ p.1.update_buffers = false ∧
      p.1.plot_type = s.plot_type ∧ p.1.rotation_speed = s.rotation_speed ∧
      p.1.view_mat = s.view_mat ∧ p.1.project_mat = s.project_mat) ∧
    (∀ (ops : RealOps) (gen : SimpleSurface → ISurfaceOutput) (s : MState)
        (dt : ℚ) (p : MState × List Effect),
      MState.update ops gen s dt = some p →
      Effect.writeBuffer (.uniform 0) 0 (.mat4 (s.project_mat * s.view_mat)) ∈ p.2 ∧
      p.1.recreate_buffers = false ∧
      p.1.plot_type = s.plot_type ∧ p.1.rotation_speed = s.rotation_speed ∧
      p.1.view_mat = s.view_mat ∧ p.1.project_mat = s.project_mat) := by
  constructor
  · intro ops gen s dt elapsed rand now p h
    unfold PState.update at h
    split at h
    · simp at h
    case h_2 s1 e1 heq1 =>
      split at h
      · simp at h
      case h_2 s2 e2 heq2 =>
        split at h
        · simp at h
        case h_2 s3 e3 heq3 =>
          simp only [Option.some.injEq] at h
          subst h
          have f1 := pstate_recreateStep_fields gen s (s1, e1) heq1
          have f2 := pstate_randomShapeStep_fields gen s1 elapsed rand now (s2, e2) heq2
          have f3 := pstate_updateBufStep_fields gen s2 (s3, e3) heq3
          refine ⟨by simp, by simp, by simp, ?_, ?_, ?_, ?_, ?_, ?_⟩
          · exact f3.2.1.trans (f2.1.trans f1.1)
          · exact f3.1
          · exact f3.2.2.1.trans (f2.2.2.1.trans f1.2.2.1)
          · exact f3.2.2.2.1.trans (f2.2.2.2.1.trans f1.2.2.2.1)
          · exact f3.2.2.2.2.1.trans (f2.2.2.2.2.1.trans f1.2.2.2.2.1)
          · exact f3.2.2.2.2.2.trans (f2.2.2.2.2.2.trans f1.2.2.2.2.2.1)
  · intro ops gen s dt p h
    unfold MState.update at h
    split at h
    · simp at h
    case h_2 s1 e1 heq1 =>
      split at h
      · simp at h
      case h_2 s2 e2 heq2 =>
        simp only [Option.some.injEq] at h
        subst h
        have f1 := mstate_recreateStep_fields gen s (s1, e1) heq1
        have f2 := mstate_animateStep_fields gen s1 dt (s2, e2) heq2
        refine ⟨by simp, ?_, ?_, ?_, ?_, ?_⟩
        · exact f2.1.trans f1.1
        · exact f2.2.1.trans f1.2.1
        · exact f2.2.2.1.trans f1.2.2.1
        · exact f2.2.2.2.1.trans f1.2.2.2.1
        · exact f2.2.2.2.2.trans f1.2.2.2.2.1

/-- Witness for `update_uploads` at the concrete fixtures. -/
theorem update_uploads_witness :
    (Effect.writeBuffer (.uniform 0) 0 (.mat4 (pSt0.project_mat * pSt0.view_mat)) ∈
        pUpd0.2 ∧
      pUpd0.1.recreate_buffers = false ∧ pUpd0.1.update_buffers = false) ∧
    (Effect.writeBuffer (.uniform 0) 0 (.mat4 (mSt0.project_mat * mSt0.view_mat)) ∈
        mUpd0.2 ∧
      mUpd0.1.recreate_buffers = false) :=
  ⟨⟨(update_uploads.1 trivialOps pGen0 pSt0 1 0 0 0 pUpd0 rfl).1,
      (update_uploads.1 trivialOps pGen0 pSt0 1 0 0 0 pUpd0 rfl).2.2.2.1,
      (update_uploads.1 trivialOps pGen0 pSt0 1 0 0 0 pUpd0 rfl).2.2.2.2.1⟩,
    ⟨(update_uploads.2 trivialOps mGen0 mSt0 0 mUpd0 rfl).1,
      (update_uploads.2 trivialOps mGen0 mSt0 0 mUpd0 rfl).2.1⟩⟩
